import Mathlib

/-!
Verification of the workflow-orchestration core of the
AI-Software-Engineering-Team MCP server (`src/server.py`).

The embedding models the module-level `project_state` dict, the eight
specialist workers, and the `orchestrator` tool: its run-start state reset,
planning/JSON-extraction phase, step-execution loop with its `results` dict
(keyed by agent name) and `workflow_outputs` list, and the final summary
assembly.  External calls (Gemini text generation, Tavily search, the
regex/JSON plan extraction applied to Gemini's text) are supplied by an
environment record; everything else is translated from the source.
Large prompt/format template strings are condensed to skeletons that keep
every operative literal (state-field interpolations, fallback defaults,
error-message prefixes and notices) while dropping inert prompt prose.
-/

namespace Server

/-- The `project_state` dict (`server.py` lines 47-56).  Every key is always
present; a `None` value is `Option.none`.  `code_modules` is a Python dict
(insertion ordered), modelled as an association list. -/
structure ProjectState where
  current_project : Option String
  requirements : Option String
  architecture : Option String
  tech_stack : Option String
  implementation_plan : Option String
  code_modules : List (String × String)
  testing_results : Option String
  deployment_plan : Option String
deriving Repr, DecidableEq

/-- The initial `project_state` value at process start. -/
def initialState : ProjectState :=
  { current_project := none, requirements := none, architecture := none,
    tech_stack := none, implementation_plan := none, code_modules := [],
    testing_results := none, deployment_plan := none }

/-- `reset_project` (lines 1662-1678): sets all eight keys back to their
initial values and ignores the previous contents. -/
def reset_project (_st : ProjectState) : ProjectState :=
  { current_project := none, requirements := none, architecture := none,
    tech_stack := none, implementation_plan := none, code_modules := [],
    testing_results := none, deployment_plan := none }

/-- The inline reset at the start of `orchestrator` (lines 1114-1120).
It assigns `current_project`, `requirements`, `architecture`,
`implementation_plan`, `code_modules` and `deployment_plan`; the keys
`tech_stack` and `testing_results` are not assigned there. -/
def orchestratorReset (user_request : String) (st : ProjectState) : ProjectState :=
  { st with current_project := some user_request, requirements := none,
            architecture := none, implementation_plan := none,
            code_modules := [], deployment_plan := none }

/-- Python dict assignment `d[k] = v` on an insertion-ordered dict:
replace in place if the key exists, else append at the end. -/
def updateAssoc : List (String × String) → String → String → List (String × String)
  | [], k, v => [(k, v)]
  | (k', v') :: rest, k, v =>
      if k' = k then (k, v) :: rest else (k', v') :: updateAssoc rest k v

/-- Python `d.get(k, default)` / `d.get(k)` on an assoc-list dict. -/
def lookupAssoc : List (String × String) → String → Option String
  | [], _ => none
  | (k', v') :: rest, k => if k' = k then some v' else lookupAssoc rest k

/-- Python truthiness of an optional string (`if not x:` is taken when the
value is `None` or the empty string). -/
def truthy : Option String → Bool
  | none => false
  | some s => s ≠ ""

/-- Python `f"{x}"` rendering of a value that may be `None`. -/
def pyStr : Option String → String
  | none => "None"
  | some s => s

/-- `x if x else d` on an optional string. -/
def pyOr (o : Option String) (d : String) : String :=
  if truthy o then o.getD "" else d

/-- Message of the `TypeError` raised by Python when slicing `None`
(e.g. `project_state.get('architecture', ...)[:1000]` with the key present
and holding `None`). -/
def pyNoneErr : String := "'NoneType' object is not subscriptable"

/-- Outcome of one worker-function call as the orchestrator loop sees it:
either the function returns a string (possibly its own error string) after
updating `project_state` and issuing some Gemini calls, or an exception
escapes the call. -/
inductive DOut where
  | ok (text : String) (st : ProjectState) (calls : List String)
  | raised (e : String)
deriving Repr, DecidableEq

/-- A step of the planner's `team_workflow` JSON (keys read by the code:
`step`, `agent`, `parameters`, `depends_on`, plus the display-only
`reason` / `estimated_time`). -/
structure Params where
  user_request : Option String
  additional_context : Option String
  topic : Option String
  focus_areas : Option (List String)
  requirements : Option String
  research_findings : Option String
  architecture : Option String
  module_name : Option String
  specifications : Option String
  language : Option String
  code : Option String
  test_type : Option String
  environment : Option String
  deployment_type : Option String
  doc_type : Option String
deriving Repr, DecidableEq

/-- A parameter bag with every key absent. -/
def pnone : Params :=
  { user_request := none, additional_context := none, topic := none,
    focus_areas := none, requirements := none, research_findings := none,
    architecture := none, module_name := none, specifications := none,
    language := none, code := none, test_type := none, environment := none,
    deployment_type := none, doc_type := none }

structure WStep where
  step : Int
  agent : String
  parameters : Params
  depends_on : List Int
  reason : Option String
  estimated_time : Option String
deriving Repr, DecidableEq

/-- A bare step with the given agent and parameters. -/
def mkStep (n : Int) (agent : String) (p : Params) : WStep :=
  { step := n, agent := agent, parameters := p, depends_on := [],
    reason := none, estimated_time := none }

/-- The plan JSON produced by the orchestrator's analysis call (the keys the
code reads). -/
structure Plan where
  project_name : Option String
  complexity : Option String
  analysis : Option String
  estimated_total_time : Option String
  team_workflow : List WStep
  key_modules : List String
  success_criteria : List String
deriving Repr, DecidableEq

/-- External collaborators: Gemini availability, the Gemini call
(`prompt ↦ response text` or the exception it raises), the regex +
`json.loads` extraction applied to the analysis text (`.error e` = the JSON
raised, `.ok none` = regex found no match, `.ok (some p)` = parsed plan),
and the serialized Tavily search data interpolated into the research
prompt. -/
structure Env where
  gemini_available : Bool
  gem : String → Except String String
  parsePlan : String → Except String (Option Plan)
  tavilyData : String

/-! Prompt skeletons.  Each keeps exactly the data the source interpolates
into the corresponding f-string prompt, in source order. -/

def analystPrompt (user_request additional_context : String) : String :=
  "You are an expert Product Analyst|USER REQUEST:" ++ user_request ++
    "|ADDITIONAL CONTEXT:" ++ additional_context

def researchPrompt (topic focus data : String) : String :=
  "You are an expert Research Engineer|TOPIC:" ++ topic ++
    "|FOCUS AREAS:" ++ focus ++ "|RESEARCH DATA:" ++ data

def architectPrompt (requirements research : String) : String :=
  "You are an expert Software Architect|REQUIREMENTS:" ++ requirements ++
    "|RESEARCH CONTEXT:" ++ research

def leadPrompt (architecture : String) : String :=
  "You are an expert Technical Lead|ARCHITECTURE:" ++ architecture

def devPrompt (module_name language specifications context : String) : String :=
  "You are an expert Senior Developer|MODULE:" ++ module_name ++
    "|LANGUAGE:" ++ language ++ "|SPECIFICATIONS:" ++ specifications ++
    "|PROJECT CONTEXT:" ++ context

def qaPrompt (module_name test_type code context : String) : String :=
  "You are an expert QA Engineer|MODULE:" ++ module_name ++
    "|TEST TYPE:" ++ test_type ++ "|CODE TO TEST:" ++ code ++
    "|PROJECT CONTEXT:" ++ context

def devopsPrompt (environment deployment_type context : String) : String :=
  "You are an expert DevOps Engineer|ENVIRONMENT:" ++ environment ++
    "|DEPLOYMENT TYPE:" ++ deployment_type ++ "|PROJECT CONTEXT:" ++ context

def docPrompt (doc_type project req arch plan : String) : String :=
  "You are an expert Technical Documentation Specialist|TYPE:" ++ doc_type ++
    "|PROJECT:" ++ project ++ "|REQUIREMENTS:" ++ req ++
    "|ARCHITECTURE:" ++ arch ++ "|IMPLEMENTATION PLAN:" ++ plan

/-! Result-banner skeletons (the decorated report strings each worker
returns around `response.text`). -/

def analystFmt (t : String) : String := "🎯 PRODUCT ANALYST REPORT|" ++ t
def researchFmt (t : String) : String := "🔍 RESEARCH ENGINEER REPORT|" ++ t
def architectFmt (t : String) : String := "🏗️ SOFTWARE ARCHITECT DESIGN DOCUMENT|" ++ t
def leadFmt (t : String) : String := "📋 TECHNICAL LEAD IMPLEMENTATION PLAN|" ++ t
def devFmt (m l t : String) : String :=
  "💻 SENIOR DEVELOPER - MODULE IMPLEMENTATION|" ++ m ++ "|" ++ l ++ "|" ++ t
def qaFmt (m ty t : String) : String :=
  "🧪 QA ENGINEER - TEST SUITE|" ++ m ++ "|" ++ ty ++ "|" ++ t
def devopsFmt (e d t : String) : String :=
  "🚀 DEVOPS ENGINEER - DEPLOYMENT CONFIGURATION|" ++ e ++ "|" ++ d ++ "|" ++ t
def docFmt (ty t : String) : String :=
  "📚 DOCUMENTATION SPECIALIST - PROJECT DOCUMENTATION|" ++ ty ++ "|" ++ t

/-! The eight worker tools (lines 62-1080).  Each checks
`GEMINI_AVAILABLE`, builds its prompt, calls Gemini inside its own
`try`/`except` (an exception there becomes the worker's own
`❌ ... Error:` return string), and on success performs its
`project_state` writes.  Prompt construction happens *outside* the `try`:
slicing a state field that holds `None` (e.g.
`project_state.get('architecture', 'See specifications')[:1000]` — the key
is always present, so `.get` returns the stored `None` and the default is
dead) raises a `TypeError` that escapes the worker (`DOut.raised`). -/

/-- `product_analyst` (lines 62-160).  On success writes
`requirements` and `current_project`. -/
def product_analyst (user_request additional_context : String)
    (st : ProjectState) (env : Env) : DOut :=
  if !env.gemini_available then .ok "❌ Product Analyst requires Gemini AI" st []
  else
    let prompt := analystPrompt user_request
      (if additional_context = "" then "None provided" else additional_context)
    match env.gem prompt with
    | .ok t => .ok (analystFmt t)
        { st with requirements := some t, current_project := some user_request }
        [prompt]
    | .error e => .ok ("❌ Product Analyst Error: " ++ e) st [prompt]

/-- `research_engineer` (lines 166-281).  No `project_state` writes. -/
def research_engineer (topic : String) (focus_areas : List String)
    (st : ProjectState) (env : Env) : DOut :=
  if !env.gemini_available then .ok "❌ Research Engineer requires Gemini AI" st []
  else
    let focus := if focus_areas = [] then "General best practices"
      else String.intercalate ", " focus_areas
    let prompt := researchPrompt topic focus (env.tavilyData.take 12000)
    match env.gem prompt with
    | .ok t => .ok (researchFmt t) st [prompt]
    | .error e => .ok ("❌ Research Engineer Error: " ++ e) st [prompt]

/-- `software_architect` (lines 287-419).  `if not requirements:` falls back
to `project_state.get("requirements", "No requirements available")`; the key
is always present, so the fallback value is the stored optional itself and a
stored `None` is rendered `"None"` in the prompt.  On success writes
`architecture`. -/
def software_architect (requirementsP research_findings : Option String)
    (st : ProjectState) (env : Env) : DOut :=
  if !env.gemini_available then .ok "❌ Software Architect requires Gemini AI" st []
  else
    let requirements : Option String :=
      if truthy requirementsP then requirementsP else st.requirements
    let prompt := architectPrompt (pyStr requirements)
      (pyOr research_findings "Use your expertise for technology choices")
    match env.gem prompt with
    | .ok t => .ok (architectFmt t) { st with architecture := some t } [prompt]
    | .error e => .ok ("❌ Software Architect Error: " ++ e) st [prompt]

/-- `technical_lead` (lines 425-542).  Same fallback pattern on
`architecture`; on success writes `implementation_plan`. -/
def technical_lead (architectureP : Option String)
    (st : ProjectState) (env : Env) : DOut :=
  if !env.gemini_available then .ok "❌ Technical Lead requires Gemini AI" st []
  else
    let architecture : Option String :=
      if truthy architectureP then architectureP else st.architecture
    let prompt := leadPrompt (pyStr architecture)
    match env.gem prompt with
    | .ok t => .ok (leadFmt t) { st with implementation_plan := some t } [prompt]
    | .error e => .ok ("❌ Technical Lead Error: " ++ e) st [prompt]

/-- `senior_developer` (lines 548-657).  The prompt slices
`project_state.get('architecture', 'See specifications')[:1000]`: with
`architecture = None` this raises `TypeError` before the Gemini call.  On
success stores the module text under `code_modules[module_name]`. -/
def senior_developer (module_name specifications language : String)
    (st : ProjectState) (env : Env) : DOut :=
  if !env.gemini_available then .ok "❌ Senior Developer requires Gemini AI" st []
  else
    match st.architecture with
    | none => .raised pyNoneErr
    | some arch =>
      let prompt := devPrompt module_name language specifications (arch.take 1000)
      match env.gem prompt with
      | .ok t => .ok (devFmt module_name language t)
          { st with code_modules := updateAssoc st.code_modules module_name t }
          [prompt]
      | .error e => .ok ("❌ Senior Developer Error: " ++ e) st [prompt]

/-- `qa_engineer` (lines 663-791).  `if not code:` falls back to
`project_state.get("code_modules", {}).get(module_name, "No code available")`
(the inner `.get` default is live: the module key may be absent).  The
prompt then slices `architecture[:1000]`, raising on `None`.  No state
writes. -/
def qa_engineer (module_name : String) (codeP : Option String)
    (test_type : String) (st : ProjectState) (env : Env) : DOut :=
  if !env.gemini_available then .ok "❌ QA Engineer requires Gemini AI" st []
  else
    let code : String :=
      if truthy codeP then codeP.getD ""
      else (lookupAssoc st.code_modules module_name).getD "No code available"
    match st.architecture with
    | none => .raised pyNoneErr
    | some arch =>
      let prompt := qaPrompt module_name test_type (code.take 6000) (arch.take 1000)
      match env.gem prompt with
      | .ok t => .ok (qaFmt module_name test_type t) st [prompt]
      | .error e => .ok ("❌ QA Engineer Error: " ++ e) st [prompt]

/-- `devops_engineer` (lines 797-932).  Prompt slices
`architecture[:2000]`, raising on `None`; on success writes
`deployment_plan`. -/
def devops_engineer (environment deployment_type : String)
    (st : ProjectState) (env : Env) : DOut :=
  if !env.gemini_available then .ok "❌ DevOps Engineer requires Gemini AI" st []
  else
    match st.architecture with
    | none => .raised pyNoneErr
    | some arch =>
      let prompt := devopsPrompt environment deployment_type (arch.take 2000)
      match env.gem prompt with
      | .ok t => .ok (devopsFmt environment deployment_type t)
          { st with deployment_plan := some t } [prompt]
      | .error e => .ok ("❌ DevOps Engineer Error: " ++ e) st [prompt]

/-- `documentation_specialist` (lines 938-1080).  The context block slices
`requirements[:2000]`, `architecture[:2000]`, `implementation_plan[:1000]`
in that order, raising at the first `None`; `current_project` is
interpolated unsliced (a `None` renders `"None"`).  No state writes. -/
def documentation_specialist (doc_type : String)
    (st : ProjectState) (env : Env) : DOut :=
  if !env.gemini_available then .ok "❌ Documentation Specialist requires Gemini AI" st []
  else
    match st.requirements with
    | none => .raised pyNoneErr
    | some req =>
      match st.architecture with
      | none => .raised pyNoneErr
      | some arch =>
        match st.implementation_plan with
        | none => .raised pyNoneErr
        | some plan =>
          let prompt := docPrompt doc_type (pyStr st.current_project)
            (req.take 2000) (arch.take 2000) (plan.take 1000)
          match env.gem prompt with
          | .ok t => .ok (docFmt doc_type t) st [prompt]
          | .error e => .ok ("❌ Documentation Specialist Error: " ++ e) st [prompt]

/-- The agent names the orchestrator's dispatch chain recognizes
(lines 1261-1298). -/
def knownAgents : List String :=
  ["product_analyst", "research_engineer", "software_architect",
   "technical_lead", "senior_developer", "qa_engineer", "devops_engineer",
   "documentation_specialist"]

/-- The `if`/`elif` dispatch inside the execution loop (lines 1260-1300),
including each branch's `parameters.get(..., default)` reads.  An
unrecognized agent name produces the `❌ Unknown agent` result string (no
exception, no state change). -/
def dispatch (env : Env) (user_request : String) (agent : String)
    (p : Params) (st : ProjectState) : DOut :=
  if agent = "product_analyst" then
    product_analyst (p.user_request.getD user_request)
      (p.additional_context.getD "") st env
  else if agent = "research_engineer" then
    research_engineer (p.topic.getD user_request) (p.focus_areas.getD []) st env
  else if agent = "software_architect" then
    software_architect p.requirements p.research_findings st env
  else if agent = "technical_lead" then
    technical_lead p.architecture st env
  else if agent = "senior_developer" then
    senior_developer (p.module_name.getD "main_module")
      (p.specifications.getD "Implement according to architecture")
      (p.language.getD "python") st env
  else if agent = "qa_engineer" then
    qa_engineer (p.module_name.getD "main_module") p.code
      (p.test_type.getD "comprehensive") st env
  else if agent = "devops_engineer" then
    devops_engineer (p.environment.getD "production")
      (p.deployment_type.getD "cloud") st env
  else if agent = "documentation_specialist" then
    documentation_specialist (p.doc_type.getD "complete") st env
  else
    .ok ("❌ Unknown agent: " ++ agent) st []

/-! The execution loop (lines 1245-1313) and final-summary assembly
(lines 1315-1381). -/

/-- The loop's accumulated locals: the `results` dict (agent name →
result string), the `workflow_outputs` list, the shared `project_state`,
the Gemini prompts issued by dispatched workers, the agents dispatched so
far (one entry per loop iteration, in order), and the growing
`plan_summary` text. -/
structure ExecState where
  results : List (String × String)
  outputs : List String
  st : ProjectState
  calls : List String
  invoked : List String
  summary : String
deriving Repr, DecidableEq

/-- The per-step banner appended to `plan_summary` before the `try`
(line 1257). -/
def stepHeader (w : WStep) : String :=
  "\n▶️  STEP " ++ toString w.step ++ ": " ++ w.agent ++ "\n"

/-- `result[:800] + "..." if len(result) > 800 else result`, then the
newline the loop appends (lines 1306-1307). -/
def preview (t : String) : String :=
  (if t.length > 800 then t.take 800 ++ "..." else t) ++ "\n"

/-- The part of a loop iteration that runs before the `try`: banner into
`plan_summary` and the dispatch attempt itself. -/
def stepBegin (w : WStep) (es : ExecState) : ExecState :=
  { es with summary := es.summary ++ stepHeader w,
            invoked := es.invoked ++ [w.agent] }

/-- The `try` body after a normal return (lines 1302-1307):
`results[agent_name] = result`, `workflow_outputs.append(result)`, and the
preview into `plan_summary`. -/
def stepOk (w : WStep) (t : String) (st' : ProjectState) (cs : List String)
    (es : ExecState) : ExecState :=
  { es with results := updateAssoc es.results w.agent t,
            outputs := es.outputs ++ [t],
            st := st', calls := es.calls ++ cs,
            summary := es.summary ++ preview t }

/-- The `except` branch (lines 1309-1313): the error message goes into
`plan_summary` and `results[agent_name]`, but is *not* appended to
`workflow_outputs`; `project_state` is unchanged. -/
def stepRaised (w : WStep) (e : String) (es : ExecState) : ExecState :=
  { es with results := updateAssoc es.results w.agent
              ("❌ Error executing " ++ w.agent ++ ": " ++ e),
            summary := es.summary ++
              ("❌ Error executing " ++ w.agent ++ ": " ++ e) ++ "\n" }

/-- One iteration of `for step_info in plan.get('team_workflow', [])`. -/
def runStep (env : Env) (user_request : String) (w : WStep)
    (es : ExecState) : ExecState :=
  match dispatch env user_request w.agent w.parameters (stepBegin w es).st with
  | .ok t st' cs => stepOk w t st' cs (stepBegin w es)
  | .raised e => stepRaised w e (stepBegin w es)

/-- The whole loop: a single pass over `team_workflow` in list order. -/
def execSteps (env : Env) (user_request : String) :
    List WStep → ExecState → ExecState
  | [], es => es
  | w :: rest, es => execSteps env user_request rest (runStep env user_request w es)

/-- One line of the plan display (lines 1222-1234); `if depends:` skips the
dependency line for an empty list. -/
def stepLine (w : WStep) : String :=
  "\n  Step " ++ toString w.step ++ ": " ++ w.agent ++
    "|⏱️  Time: " ++ w.estimated_time.getD "Unknown" ++
    "|💡 Reason: " ++ w.reason.getD "No reason provided" ++
    (if w.depends_on = [] then ""
     else "|🔗 Depends on steps: " ++
       String.intercalate ", " (w.depends_on.map toString)) ++ "\n"

/-- The plan summary built before execution (lines 1204-1239). -/
def planSummary (plan : Plan) (_user_request : String) : String :=
  "🎯 ORCHESTRATOR - AI SOFTWARE ENGINEERING TEAM" ++
    "|🏢 Project: " ++ plan.project_name.getD "Unnamed Project" ++
    "|📊 Complexity: " ++ plan.complexity.getD "Unknown" ++
    "|⏱️ Estimated Time: " ++ plan.estimated_total_time.getD "Unknown" ++
    "|📋 PROJECT ANALYSIS:" ++ plan.analysis.getD "No analysis provided" ++
    "|✅ SUCCESS CRITERIA:" ++
    String.intercalate "" (plan.success_criteria.map (fun c => "  • " ++ c)) ++
    "|🔧 TEAM WORKFLOW (" ++ toString plan.team_workflow.length ++ " steps):" ++
    String.intercalate "" (plan.team_workflow.map stepLine) ++
    (if plan.key_modules = [] then ""
     else "\n📦 KEY MODULES TO IMPLEMENT:\n" ++
       String.intercalate "" (plan.key_modules.map (fun m => "  • " ++ m ++ "\n")))

/-- Appended when `auto_execute` is false (line 1242). -/
def autoNotice : String :=
  "\n\n💡 Set auto_execute=True to execute this plan automatically."

/-- Banner opening the execution phase (line 1246). -/
def execHeader : String := "\n\n🚀 EXECUTING TEAM WORKFLOW\n"

/-- The analysis prompt sent to Gemini to obtain the plan JSON
(lines 1123-1180). -/
def analysisPrompt (user_request execution_mode : String) : String :=
  "You are the Orchestrator AI coordinating a team of 8 software engineering specialists|USER REQUEST:"
    ++ user_request ++ "|EXECUTION MODE:" ++ execution_mode

/-- The final-summary prompt (lines 1316-1357): interpolates the request,
the project name, and the `results` dict with each value truncated to 500
characters. -/
def summaryPrompt (user_request project_name : String)
    (results : List (String × String)) : String :=
  "You are the Orchestrator AI providing a final project summary|ORIGINAL REQUEST:"
    ++ user_request ++ "|PROJECT NAME:" ++ project_name ++
    "|TEAM OUTPUTS SUMMARY:" ++
    String.intercalate ","
      (results.map (fun kv => kv.1 ++ ":" ++ (kv.2.take 500 ++ "...")))

/-- The closing banner (lines 1375-1379): counts come from `len(results)`
(the agent-keyed dict) and `len(workflow_outputs)`. -/
def finalBlock (es : ExecState) : String :=
  "\n\n✅ PROJECT COMPLETE\n👥 Team Members Involved: " ++
    toString es.results.length ++
    "\n📦 Artifacts Generated: " ++ toString es.outputs.length ++ "\n"

/-- Final-summary assembly (lines 1359-1381): the delivery-summary Gemini
call is wrapped in `try`/`except`; on failure the narrative section is
replaced by the `❌ Error generating summary` notice and the already
accumulated `plan_summary` (with its per-step status content) is still
returned, followed by the closing banner. -/
def finalize (env : Env) (user_request project_name : String)
    (es : ExecState) : String :=
  es.summary ++
    (match env.gem (summaryPrompt user_request project_name es.results) with
     | .ok t => "\n\n🎯 PROJECT DELIVERY SUMMARY\n" ++ t ++ "\n"
     | .error e => "\n\n❌ Error generating summary: " ++ e) ++
    finalBlock es

/-- Everything `orchestrator` leaves observable: the returned text, the
final `project_state`, and the run's `results` dict, `workflow_outputs`
list, specialist Gemini prompts and dispatched agents (all empty when the
run never reaches the loop). -/
structure OrchOut where
  text : String
  st : ProjectState
  results : List (String × String)
  outputs : List String
  calls : List String
  invoked : List String
deriving Repr, DecidableEq

/-- `orchestrator` (lines 1086-1381): Gemini gate, inline state reset,
analysis call plus regex/JSON extraction (an exception anywhere in that
`try` yields the `Analysis Error` return, a regex miss the
`Could not parse` return — both *after* the reset), the `auto_execute`
early return, the execution loop, and the final assembly. -/
def orchestrator (user_request : String) (auto_execute : Bool)
    (execution_mode : String) (st : ProjectState) (env : Env) : OrchOut :=
  if !env.gemini_available then
    ⟨"❌ Orchestrator requires Gemini AI for intelligent coordination",
      st, [], [], [], []⟩
  else
    let st1 := orchestratorReset user_request st
    match env.gem (analysisPrompt user_request execution_mode) with
    | .error e => ⟨"❌ Orchestrator Analysis Error: " ++ e, st1, [], [], [], []⟩
    | .ok analysis_text =>
      match env.parsePlan analysis_text with
      | .error e => ⟨"❌ Orchestrator Analysis Error: " ++ e, st1, [], [], [], []⟩
      | .ok none =>
          ⟨"❌ Could not parse orchestrator analysis: " ++ analysis_text,
            st1, [], [], [], []⟩
      | .ok (some plan) =>
        let psum := planSummary plan user_request
        if !auto_execute then
          ⟨psum ++ autoNotice, st1, [], [], [], []⟩
        else
          let es := execSteps env user_request plan.team_workflow
            ⟨[], [], st1, [], [], psum ++ execHeader⟩
          ⟨finalize env user_request (plan.project_name.getD "Unnamed Project") es,
            es.st, es.results, es.outputs, es.calls, es.invoked⟩

/-- Big-step operational semantics of the execution loop, one rule per
branch of the per-step `try`/`except`: the source of each step's outcome is
the environment's collaborator behaviour, so the relation carries exactly
the nondeterminism the loop itself has (none beyond `env`). -/
inductive ExecRel (env : Env) (u : String) : List WStep → ExecState → ExecState → Prop
  | nil (es : ExecState) : ExecRel env u [] es es
  | okStep {w : WStep} {rest : List WStep} {es es' : ExecState}
      {t : String} {st' : ProjectState} {cs : List String}
      (hd : dispatch env u w.agent w.parameters (stepBegin w es).st = .ok t st' cs)
      (htail : ExecRel env u rest (stepOk w t st' cs (stepBegin w es)) es') :
      ExecRel env u (w :: rest) es es'
  | raisedStep {w : WStep} {rest : List WStep} {es es' : ExecState} {e : String}
      (hd : dispatch env u w.agent w.parameters (stepBegin w es).st = .raised e)
      (htail : ExecRel env u rest (stepRaised w e (stepBegin w es)) es') :
      ExecRel env u (w :: rest) es es'

/-! Concrete fixtures used in counterexamples and witnesses. -/

/-- Environment in which every Gemini call succeeds with `"RESP"` and plan
extraction finds no JSON. -/
def envA : Env := ⟨true, fun _ => .ok "RESP", fun _ => .ok none, "DATA"⟩

/-- Two `senior_developer` steps for distinct modules. -/
def devStep1 : WStep :=
  mkStep 1 "senior_developer" { pnone with module_name := some "m1", specifications := some "sp1" }

def devStep2 : WStep :=
  mkStep 2 "senior_developer" { pnone with module_name := some "m2", specifications := some "sp2" }

/-- Loop state whose project already has an architecture (so
`senior_developer` does not raise). -/
def esDev : ExecState :=
  ⟨[], [], { initialState with architecture := some "ARCH" }, [], [], ""⟩

/-- Environment where the product analyst's Gemini call raises and every
other call succeeds. -/
def envQuota : Env :=
  ⟨true,
   fun p => if p = analystPrompt "REQ" "None provided" then .error "quota" else .ok "RESP",
   fun _ => .ok none, "DATA"⟩

def paStep : WStep := mkStep 1 "product_analyst" pnone

def archStep : WStep := { mkStep 2 "software_architect" pnone with depends_on := [1] }

def docStep : WStep := mkStep 1 "documentation_specialist" pnone

/-- Loop state immediately after the run-start reset for request `"REQ"`. -/
def esReset : ExecState := ⟨[], [], orchestratorReset "REQ" initialState, [], [], ""⟩

/-- A plan whose first step names a worker outside the registry. -/
def planBad : Plan :=
  ⟨some "P", none, none, none,
   [mkStep 1 "bad_worker" pnone, mkStep 2 "research_engineer" pnone], [], []⟩

/-- Environment whose plan extraction yields `planBad`. -/
def envPlanBad : Env := ⟨true, fun _ => .ok "T", fun _ => .ok (some planBad), "D"⟩

/-- A state carrying leftover `tech_stack` / `testing_results` values. -/
def stTech : ProjectState :=
  { initialState with tech_stack := some "Rust", testing_results := some "passed" }

/-- A state carrying artifacts of a previous run. -/
def stOld : ProjectState :=
  { initialState with current_project := some "oldproj", requirements := some "old" }

/-- Environment whose analysis text contains no extractable JSON. -/
def envNoParse : Env := ⟨true, fun _ => .ok "text", fun _ => .ok none, ""⟩

/-- Environment in which every Gemini call raises. -/
def envGemFail : Env := ⟨true, fun _ => .error "boom", fun _ => .ok none, ""⟩

/-! Helper lemmas. -/

theorem lookupAssoc_updateAssoc (l : List (String × String)) (k v a : String) :
    lookupAssoc (updateAssoc l k v) a = if a = k then some v else lookupAssoc l a := by
  induction l with
  | nil =>
    simp only [updateAssoc, lookupAssoc]
    by_cases h : a = k
    · subst h; simp
    · simp [h, Ne.symm h]
  | cons hd tl ih =>
    obtain ⟨k', v'⟩ := hd
    by_cases hk : k' = k
    · subst hk
      simp only [updateAssoc, if_pos rfl, lookupAssoc]
      by_cases ha : k' = a
      · subst ha; simp
      · simp [ha, Ne.symm ha]
    · simp only [updateAssoc, if_neg hk, lookupAssoc]
      by_cases ha : k' = a
      · subst ha
        simp [hk]
      · simp [ha, ih]

theorem stepBegin_st (w : WStep) (es : ExecState) : (stepBegin w es).st = es.st := rfl

theorem runStep_invoked (env : Env) (u : String) (w : WStep) (es : ExecState) :
    (runStep env u w es).invoked = es.invoked ++ [w.agent] := by
  unfold runStep
  split <;> simp [stepOk, stepRaised, stepBegin]

theorem runStep_results (env : Env) (u : String) (w : WStep) (es : ExecState) :
    ∃ x, (runStep env u w es).results = updateAssoc es.results w.agent x := by
  unfold runStep
  split <;> exact ⟨_, rfl⟩

theorem runStep_outputs (env : Env) (u : String) (w : WStep) (es : ExecState) :
    (runStep env u w es).outputs = es.outputs ∨
      ∃ t, (runStep env u w es).outputs = es.outputs ++ [t] := by
  unfold runStep
  split
  · exact Or.inr ⟨_, rfl⟩
  · exact Or.inl rfl

theorem execSteps_cons (env : Env) (u : String) (w : WStep) (rest : List WStep)
    (es : ExecState) :
    execSteps env u (w :: rest) es = execSteps env u rest (runStep env u w es) := rfl

theorem execSteps_invoked (env : Env) (u : String) (steps : List WStep)
    (es : ExecState) :
    (execSteps env u steps es).invoked = es.invoked ++ steps.map (fun w => w.agent) := by
  induction steps generalizing es with
  | nil => simp [execSteps]
  | cons w rest ih =>
    rw [execSteps_cons, ih, runStep_invoked]
    simp

theorem execSteps_results_isSome (env : Env) (u : String) (steps : List WStep)
    (es : ExecState) (a : String) :
    (lookupAssoc (execSteps env u steps es).results a).isSome ↔
      ((lookupAssoc es.results a).isSome ∨ a ∈ steps.map (fun w => w.agent)) := by
  induction steps generalizing es with
  | nil => simp [execSteps]
  | cons w rest ih =>
    rw [execSteps_cons, ih]
    obtain ⟨x, hx⟩ := runStep_results env u w es
    rw [hx, lookupAssoc_updateAssoc]
    by_cases h : a = w.agent
    · subst h; simp
    · simp [h, or_assoc]

theorem execSteps_outputs_append (env : Env) (u : String) (steps : List WStep)
    (es : ExecState) :
    ∃ tail, (execSteps env u steps es).outputs = es.outputs ++ tail ∧
      tail.length ≤ steps.length := by
  induction steps generalizing es with
  | nil => exact ⟨[], by simp [execSteps]⟩
  | cons w rest ih =>
    obtain ⟨tail, htail, hlen⟩ := ih (runStep env u w es)
    rw [execSteps_cons]
    rcases runStep_outputs env u w es with h | ⟨t, h⟩
    · exact ⟨tail, by rw [htail, h], Nat.le_succ_of_le hlen⟩
    · refine ⟨t :: tail, ?_, by simpa using Nat.succ_le_succ hlen⟩
      rw [htail, h]
      simp

/-- The loop body realizes the step relation. -/
theorem execRel_execSteps (env : Env) (u : String) (steps : List WStep)
    (es : ExecState) : ExecRel env u steps es (execSteps env u steps es) := by
  induction steps generalizing es with
  | nil => exact .nil es
  | cons w rest ih =>
    rw [execSteps_cons]
    cases h : dispatch env u w.agent w.parameters (stepBegin w es).st with
    | ok t st' cs =>
      refine .okStep h ?_
      have hrw : runStep env u w es = stepOk w t st' cs (stepBegin w es) := by
        unfold runStep
        rw [h]
      rw [← hrw]
      exact ih _
    | raised e =>
      refine .raisedStep h ?_
      have hrw : runStep env u w es = stepRaised w e (stepBegin w es) := by
        unfold runStep
        rw [h]
      rw [← hrw]
      exact ih _

/-- The step relation is functional: the environment fixes every branch. -/
theorem execRel_det {env : Env} {u : String} {steps : List WStep}
    {es r₁ : ExecState} (h₁ : ExecRel env u steps es r₁) :
    ∀ r₂, ExecRel env u steps es r₂ → r₁ = r₂ := by
  induction h₁ with
  | nil es => intro r₂ h₂; cases h₂; rfl
  | okStep hd htail ih =>
    intro r₂ h₂
    cases h₂ with
    | okStep hd₂ htail₂ =>
      rw [hd] at hd₂
      injection hd₂ with e₁ e₂ e₃
      subst e₁; subst e₂; subst e₃
      exact ih _ htail₂
    | raisedStep hd₂ _ =>
      rw [hd] at hd₂
      exact absurd hd₂ (by simp)
  | raisedStep hd htail ih =>
    intro r₂ h₂
    cases h₂ with
    | okStep hd₂ _ =>
      rw [hd] at hd₂
      exact absurd hd₂ (by simp)
    | raisedStep hd₂ htail₂ =>
      rw [hd] at hd₂
      injection hd₂ with e₁
      subst e₁
      exact ih _ htail₂

/-! Claim theorems. -/

/-- C1 (counterexample): the run's `results` record is a dict keyed by
agent name, so two distinct steps dispatching the same agent
(`senior_developer` for modules `m1` and `m2`) end up with a single shared,
overwritten ledger entry — not one `StepResult` per step. -/
theorem C1_counterexample :
    (execSteps envA "u" [devStep1, devStep2] esDev).results =
        [("senior_developer", devFmt "m2" "python" "RESP")] ∧
      ([devStep1, devStep2] : List WStep).length = 2 :=
  ⟨rfl, rfl⟩

/-- C1 (amended): the executor makes one deterministic pass over
`team_workflow` in list order (not sorted by step id), attempting every
step exactly once; `workflow_outputs` gains at most one entry per step (in
traversal order), while the `results` record is keyed by agent name — an
agent has an entry exactly when it already had one or appears among the
steps, so steps sharing an agent share one entry. -/
theorem C1_single_pass (env : Env) (u : String) (steps : List WStep)
    (es : ExecState) :
    (execSteps env u steps es).invoked =
        es.invoked ++ steps.map (fun w => w.agent) ∧
    (∃ tail, (execSteps env u steps es).outputs = es.outputs ++ tail ∧
        tail.length ≤ steps.length) ∧
    ∀ a, (lookupAssoc (execSteps env u steps es).results a).isSome ↔
      ((lookupAssoc es.results a).isSome ∨ a ∈ steps.map (fun w => w.agent)) :=
  ⟨execSteps_invoked env u steps es, execSteps_outputs_append env u steps es,
   fun a => execSteps_results_isSome env u steps es a⟩

/-- C2: failure isolation — every step of the list is attempted exactly
once in order no matter what the collaborators do; the loop over a cons
always continues into the tail; a step whose dispatch raises gets the
`❌ Error executing` entry recorded under its agent; a step whose worker
returns (error string included) gets its returned text recorded and
appended to `workflow_outputs`. -/
theorem C2_failure_isolation (env : Env) (u : String) :
    (∀ steps es, (execSteps env u steps es).invoked =
        es.invoked ++ steps.map (fun w => w.agent)) ∧
    (∀ w rest es, execSteps env u (w :: rest) es =
        execSteps env u rest (runStep env u w es)) ∧
    (∀ w es e, dispatch env u w.agent w.parameters es.st = .raised e →
      lookupAssoc (runStep env u w es).results w.agent =
        some ("❌ Error executing " ++ w.agent ++ ": " ++ e)) ∧
    (∀ w es t st' cs, dispatch env u w.agent w.parameters es.st = .ok t st' cs →
      lookupAssoc (runStep env u w es).results w.agent = some t ∧
      (runStep env u w es).outputs = es.outputs ++ [t]) := by
  refine ⟨fun steps es => execSteps_invoked env u steps es,
    fun w rest es => rfl, ?_, ?_⟩
  · intro w es e h
    unfold runStep
    rw [stepBegin_st, h]
    simp [stepRaised, stepBegin, lookupAssoc_updateAssoc]
  · intro w es t st' cs h
    unfold runStep
    rw [stepBegin_st, h]
    simp [stepOk, stepBegin, lookupAssoc_updateAssoc]

/-- C2 (witness): from the post-reset state, `documentation_specialist`
raises (`requirements` is `None` and gets sliced) and the failure is
recorded under its agent name. -/
theorem C2_witness :
    lookupAssoc (runStep envA "u" docStep esReset).results
        "documentation_specialist" =
      some ("❌ Error executing " ++ "documentation_specialist" ++ ": " ++
        pyNoneErr) :=
  (C2_failure_isolation envA "u").2.2.1 docStep esReset pyNoneErr rfl

/-- C3 (code bug): with `[1: product_analyst (fails), 2: software_architect
dependsOn 1]`, step 2 still executes, but its prompt interpolates the
Python `None` left in `project_state["requirements"]` — rendered `"None"`
— not the literal unavailability marker `"No requirements available"`:
that default of `project_state.get` is dead because the key is always
present. -/
theorem C3_none_not_marker :
    (execSteps envQuota "REQ" [paStep, archStep] esReset).invoked =
        ["product_analyst", "software_architect"] ∧
    (execSteps envQuota "REQ" [paStep, archStep] esReset).calls =
        [analystPrompt "REQ" "None provided",
         architectPrompt "None" "Use your expertise for technology choices"] ∧
    architectPrompt "None" "Use your expertise for technology choices" ≠
      architectPrompt "No requirements available"
        "Use your expertise for technology choices" :=
  ⟨rfl, rfl, by decide⟩

/-- C4 (counterexample): a plan whose first step names an unregistered
worker is not rejected: no validation runs, both steps are dispatched, and
the unknown name merely yields a `❌ Unknown agent` ledger entry. -/
theorem C4_counterexample :
    (orchestrator "u" true "full" initialState envPlanBad).invoked =
        ["bad_worker", "research_engineer"] ∧
    lookupAssoc (orchestrator "u" true "full" initialState envPlanBad).results
        "bad_worker" = some ("❌ Unknown agent: " ++ "bad_worker") :=
  ⟨rfl, rfl⟩

/-- C4 (amended): the code performs no plan validation; a step whose agent
name is outside the registry produces the `❌ Unknown agent` result string
(state untouched, no exception), and the loop attempts every step of any
plan exactly once regardless. -/
theorem C4_no_validation (env : Env) (u : String) :
    (∀ agent p st, agent ∉ knownAgents →
       dispatch env u agent p st = .ok ("❌ Unknown agent: " ++ agent) st []) ∧
    (∀ steps es, (execSteps env u steps es).invoked =
        es.invoked ++ steps.map (fun w => w.agent)) := by
  constructor
  · intro agent p st h
    simp only [knownAgents, List.mem_cons, List.not_mem_nil, or_false,
      not_or] at h
    obtain ⟨h1, h2, h3, h4, h5, h6, h7, h8⟩ := h
    simp [dispatch, h1, h2, h3, h4, h5, h6, h7, h8]
  · exact fun steps es => execSteps_invoked env u steps es

/-- C4 (witness): dispatching the unregistered name `bad_worker`. -/
theorem C4_witness :
    dispatch envA "u" "bad_worker" pnone initialState =
      .ok ("❌ Unknown agent: " ++ "bad_worker") initialState [] :=
  (C4_no_validation envA "u").1 "bad_worker" pnone initialState (by decide)

/-- C5 (counterexample): the orchestrator's run-start reset leaves
`tech_stack` and `testing_results` untouched — it does not clear every
field. -/
theorem C5_counterexample :
    (orchestratorReset "app" stTech).tech_stack = some "Rust" ∧
    (orchestratorReset "app" stTech).testing_results = some "passed" ∧
    ¬((orchestratorReset "app" stTech).tech_stack = none ∧
      (orchestratorReset "app" stTech).testing_results = none) :=
  ⟨rfl, rfl, by decide⟩

/-- C5 (amended): the run-start reset sets `current_project` to the request
and clears `requirements`, `architecture`, `implementation_plan`,
`code_modules` (fully overwritten to empty, never merged) and
`deployment_plan`, but carries `tech_stack` and `testing_results` over
unchanged; only the explicit `reset_project` clears those two. -/
theorem C5_partial_reset (u : String) (st : ProjectState) :
    (orchestratorReset u st).current_project = some u ∧
    (orchestratorReset u st).requirements = none ∧
    (orchestratorReset u st).architecture = none ∧
    (orchestratorReset u st).implementation_plan = none ∧
    (orchestratorReset u st).code_modules = [] ∧
    (orchestratorReset u st).deployment_plan = none ∧
    (orchestratorReset u st).tech_stack = st.tech_stack ∧
    (orchestratorReset u st).testing_results = st.testing_results ∧
    (reset_project st).tech_stack = none ∧
    (reset_project st).testing_results = none :=
  ⟨rfl, rfl, rfl, rfl, rfl, rfl, rfl, rfl, rfl, rfl⟩

/-- C6 (counterexample): when the planner's output is unparseable the run
aborts with the diagnostic and no worker is invoked — but the ProjectState
is *not* left unchanged: it was already reset (and `current_project`
overwritten) before the planning call. -/
theorem C6_counterexample :
    (orchestrator "newapp" true "full" stOld envNoParse).text =
        "❌ Could not parse orchestrator analysis: " ++ "text" ∧
    (orchestrator "newapp" true "full" stOld envNoParse).invoked = [] ∧
    (orchestrator "newapp" true "full" stOld envNoParse).st ≠ stOld ∧
    (orchestrator "newapp" true "full" stOld envNoParse).st.requirements = none ∧
    stOld.requirements = some "old" :=
  ⟨rfl, rfl, by decide, rfl, rfl⟩

/-- C6 (amended): on any planning failure (Gemini exception, JSON
extraction miss, or JSON decode exception) the run aborts with a clear
diagnostic and dispatches no worker, but the returned ProjectState is the
already-reset one, not the pre-run state. -/
theorem C6_abort_after_reset (u mode : String) (ae : Bool) (st : ProjectState)
    (env : Env) (hg : env.gemini_available = true) :
    (∀ t, env.gem (analysisPrompt u mode) = .ok t → env.parsePlan t = .ok none →
      orchestrator u ae mode st env =
        ⟨"❌ Could not parse orchestrator analysis: " ++ t,
          orchestratorReset u st, [], [], [], []⟩) ∧
    (∀ e, env.gem (analysisPrompt u mode) = .error e →
      orchestrator u ae mode st env =
        ⟨"❌ Orchestrator Analysis Error: " ++ e,
          orchestratorReset u st, [], [], [], []⟩) ∧
    (∀ t e, env.gem (analysisPrompt u mode) = .ok t →
        env.parsePlan t = .error e →
      orchestrator u ae mode st env =
        ⟨"❌ Orchestrator Analysis Error: " ++ e,
          orchestratorReset u st, [], [], [], []⟩) := by
  refine ⟨?_, ?_, ?_⟩
  · intro t h1 h2
    simp [orchestrator, hg, h1, h2]
  · intro e h1
    simp [orchestrator, hg, h1]
  · intro t e h1 h2
    simp [orchestrator, hg, h1, h2]

/-- C6 (witness): the unparseable-analysis abort at a concrete input. -/
theorem C6_witness :
    orchestrator "newapp" true "full" stOld envNoParse =
      ⟨"❌ Could not parse orchestrator analysis: " ++ "text",
        orchestratorReset "newapp" stOld, [], [], [], []⟩ :=
  (C6_abort_after_reset "newapp" "full" true stOld envNoParse rfl).1 "text" rfl rfl

/-- C7: report assembly always returns text extending the accumulated
per-step status content, and when the narrative-synthesis Gemini call
fails the narrative section is replaced by the plain
`❌ Error generating summary` notice followed by the closing banner — a
collaborator failure is never propagated. -/
theorem C7_assembly_total (env : Env) (u pname : String) (es : ExecState) :
    (∃ tail, finalize env u pname es = es.summary ++ tail) ∧
    (∀ e, env.gem (summaryPrompt u pname es.results) = .error e →
      finalize env u pname es =
        es.summary ++ ("\n\n❌ Error generating summary: " ++ e) ++
          finalBlock es) := by
  constructor
  · unfold finalize
    cases env.gem (summaryPrompt u pname es.results) <;>
      exact ⟨_, by rw [String.append_assoc]⟩
  · intro e h
    unfold finalize
    rw [h]

/-- C7 (witness): assembly with an always-failing Gemini. -/
theorem C7_witness :
    finalize envGemFail "u" "P" esReset =
      esReset.summary ++ ("\n\n❌ Error generating summary: " ++ "boom") ++
        finalBlock esReset :=
  (C7_assembly_total envGemFail "u" "P" esReset).2 "boom" rfl

/-- C8: the execution loop is deterministic — two runs over the same steps
from the same loop state under the same collaborator behaviour produce the
same `results`, the same `workflow_outputs` (same entries, same order) and
the same final ProjectState. -/
theorem C8_deterministic (env : Env) (u : String) (steps : List WStep)
    (es r₁ r₂ : ExecState) (h₁ : ExecRel env u steps es r₁)
    (h₂ : ExecRel env u steps es r₂) :
    r₁.results = r₂.results ∧ r₁.outputs = r₂.outputs ∧ r₁.st = r₂.st := by
  have h := execRel_det h₁ r₂ h₂
  subst h
  exact ⟨rfl, rfl, rfl⟩

/-- C8 (witness): two derivations of the two-developer-step run agree. -/
theorem C8_witness :
    (execSteps envA "u" [devStep1, devStep2] esDev).results =
        (execSteps envA "u" [devStep1, devStep2] esDev).results ∧
      (execSteps envA "u" [devStep1, devStep2] esDev).outputs =
        (execSteps envA "u" [devStep1, devStep2] esDev).outputs ∧
      (execSteps envA "u" [devStep1, devStep2] esDev).st =
        (execSteps envA "u" [devStep1, devStep2] esDev).st :=
  C8_deterministic envA "u" [devStep1, devStep2] esDev _ _
    (execRel_execSteps envA "u" [devStep1, devStep2] esDev)
    (execRel_execSteps envA "u" [devStep1, devStep2] esDev)

/-- C9: `reset_project` is idempotent — applying it twice yields exactly
the state one application yields. -/
theorem C9_reset_idempotent (st : ProjectState) :
    reset_project (reset_project st) = reset_project st := rfl

/-- C10: with `auto_execute = False` and a parseable plan, the orchestrator
returns the plan summary having dispatched no specialist worker — yet the
shared ProjectState has already been mutated before that return:
`current_project` holds the request and the five artifact fields are
cleared. -/
theorem C10_plan_only_mutates (u mode : String) (st : ProjectState) (env : Env)
    (plan : Plan) (t : String) (hg : env.gemini_available = true)
    (h1 : env.gem (analysisPrompt u mode) = .ok t)
    (h2 : env.parsePlan t = .ok (some plan)) :
    orchestrator u false mode st env =
      ⟨planSummary plan u ++ autoNotice, orchestratorReset u st,
        [], [], [], []⟩ ∧
    (orchestrator u false mode st env).invoked = [] ∧
    (orchestrator u false mode st env).st.current_project = some u ∧
    (orchestrator u false mode st env).st.requirements = none ∧
    (orchestrator u false mode st env).st.architecture = none ∧
    (orchestrator u false mode st env).st.implementation_plan = none ∧
    (orchestrator u false mode st env).st.code_modules = [] ∧
    (orchestrator u false mode st env).st.deployment_plan = none := by
  have key : orchestrator u false mode st env =
      ⟨planSummary plan u ++ autoNotice, orchestratorReset u st,
        [], [], [], []⟩ := by
    simp [orchestrator, hg, h1, h2]
  rw [key]
  exact ⟨rfl, rfl, rfl, rfl, rfl, rfl, rfl, rfl⟩

/-- C10 (witness): the plan-only path at a concrete input. -/
theorem C10_witness :
    orchestrator "u" false "full" stOld envPlanBad =
      ⟨planSummary planBad "u" ++ autoNotice, orchestratorReset "u" stOld,
        [], [], [], []⟩ ∧
    (orchestrator "u" false "full" stOld envPlanBad).invoked = [] ∧
    (orchestrator "u" false "full" stOld envPlanBad).st.current_project =
        some "u" ∧
    (orchestrator "u" false "full" stOld envPlanBad).st.requirements = none ∧
    (orchestrator "u" false "full" stOld envPlanBad).st.architecture = none ∧
    (orchestrator "u" false "full" stOld envPlanBad).st.implementation_plan =
        none ∧
    (orchestrator "u" false "full" stOld envPlanBad).st.code_modules = [] ∧
    (orchestrator "u" false "full" stOld envPlanBad).st.deployment_plan =
        none :=
  C10_plan_only_mutates "u" "full" stOld envPlanBad planBad "T" rfl rfl rfl

end Server





